import Mathlib

/-!
Shallow embedding of the trade lifecycle and position-accounting logic of
`app/services/ostium_service.py` (class `OstiumService`), and proofs of the
spec's claims about it.

Modelling conventions:
* Python floats are modelled as rationals (`ℚ`); Python `round(x, 2)` is
  modelled as rounding `x * 100` to the nearest integer and dividing by 100
  (tie behaviour differs from Python's round-half-to-even, but no claim
  touches a tie).
* A Python dict result is modelled as a structure whose fields are `Option`s:
  a key absent from the dict on some branch is `none` there.
* Exceptions caught by a function's own `except` handler (which the source
  converts into `{"success": False, "error": str(e)}`) are modelled by an
  `Except String` value or by an explicit error branch.
* Calls to the external ledger gateway (price fetch, submission, tracking,
  position fetch) are modelled by an environment record supplying their
  results, and each operation also returns the list of external calls it
  performed, in order.
-/

namespace Ostium

/-- Python `round(x, 2)` on the rational model: nearest multiple of 1/100. -/
def round2 (x : ℚ) : ℚ := (round (x * 100) : ℤ) / 100

/-! ## Financial Calculator

The formulas below are inlined in the source; each definition records the
line it is taken from.
-/

/-- `position_size = collateral * leverage` (ostium_service.py line 786,
also line 858). -/
def position_size (collateral leverage : ℚ) : ℚ := collateral * leverage

/-- At-open liquidation formula, inlined in `trade_data_points`
(ostium_service.py lines 788-791): long → `price * (1 - 1/leverage)`,
short → `price * (1 + 1/leverage)`. The source has no guard here; the
caller must ensure `leverage ≠ 0` (Python would raise `ZeroDivisionError`). -/
def liquidation_price_at_open (entry leverage : ℚ) (direction : Bool) : ℚ :=
  if direction then entry * (1 - 1 / leverage) else entry * (1 + 1 / leverage)

/-- Live liquidation estimate for an open position, inlined in
`close_trade_datapoints` (ostium_service.py lines 860-866): guarded by
`if leverage > 0`, else returns `entry_price`. -/
def liquidation_price_estimate (entry leverage : ℚ) (direction : Bool) : ℚ :=
  if leverage > 0 then
    (if direction then entry * (1 - (9/10) / leverage)
     else entry * (1 + (9/10) / leverage))
  else entry

/-- Unrealized P&L, inlined in `close_trade_datapoints`
(ostium_service.py lines 868-871): long → `(exit - entry)/entry * size`,
short → `(entry - exit)/entry * size`. -/
def pnl_open (entry exit_price size : ℚ) (direction : Bool) : ℚ :=
  if direction then (exit_price - entry) / entry * size
  else (entry - exit_price) / entry * size

/-- P&L as a percentage of collateral, inlined in `close_trade_datapoints`
(ostium_service.py line 873): `(pnl / collateral) * 100 if collateral > 0
else 0`. -/
def pnl_percentage (pnl collateral : ℚ) : ℚ :=
  if collateral > 0 then pnl / collateral * 100 else 0

/-- Realized P&L reconstructed from a venue-reported percentage, inlined in
`close_trade_datapoints` (ostium_service.py line 828):
`(profit_loss_percentage / 100.0) * collateral`. -/
def pnl_closed (reported_percentage collateral : ℚ) : ℚ :=
  reported_percentage / 100 * collateral

/-! ## Numeric Encoder (ostium_service.py lines 433-435) -/

/-- `min(max(int(v) if v is not None else 0, 0), 65535)`
(ostium_service.py line 433). -/
def encode_u16 (value : Option ℤ) : ℤ := min (max (value.getD 0) 0) 65535

/-- `min(max(int(v) if v is not None else 0, 0), 255)`
(ostium_service.py line 434). -/
def encode_u8 (value : Option ℤ) : ℤ := min (max (value.getD 0) 0) 255

/-- `min(max(int(v) if v is not None else 100, 0), 65535)`
(ostium_service.py line 435). -/
def encode_percentage (value : Option ℤ) : ℤ := min (max (value.getD 100) 0) 65535

/-! ## Trade summary computation (`trade_data_points`,
ostium_service.py lines 769-801) -/

/-- The dict returned by `trade_data_points` on success. -/
structure TradeSummary where
  entry : ℚ
  size : ℚ
  liquidation : ℚ
  direction : String
deriving DecidableEq, Repr

/-- `trade_data_points(from, to, collateral, leverage, direction)`
(ostium_service.py lines 769-801). `price?` is the result of the internal
`get_price` call (`none` models a failed fetch, which yields the
"Could not fetch current price" failure dict). With `leverage = 0` the
source evaluates `1 / leverage`, raising `ZeroDivisionError`, which the
function's own handler turns into `{"success": False, "error":
"division by zero"}`. -/
def trade_data_points (price? : Option ℚ) (collateral : ℚ) (leverage : ℤ)
    (direction : Bool) : Except String TradeSummary :=
  match price? with
  | Option.none => Except.error "Could not fetch current price"
  | Option.some price =>
    if leverage = 0 then Except.error "division by zero"
    else
      Except.ok
        { entry := round2 price
          size := round2 (position_size collateral (leverage : ℚ))
          liquidation := round2 (liquidation_price_at_open price (leverage : ℚ) direction)
          direction := if direction then "LONG" else "SHORT" }

/-! ## Loosely typed identifiers

`close_trade` takes `pair_id: Any` and applies Python truthiness, `str()`
and `int()` to it. `PyId` models the identifier values the routes can pass
(`None`, an int, or a string). -/

/-- Value of a decimal digit character, `none` for a non-digit. -/
def charDigit? (c : Char) : Option ℕ :=
  if 48 ≤ c.toNat ∧ c.toNat ≤ 57 then Option.some (c.toNat - 48) else Option.none

/-- Left-fold accumulation of decimal digits; `none` on any non-digit. -/
def digitsVal : List Char → ℕ → Option ℕ
  | [], acc => Option.some acc
  | c :: cs, acc =>
    match charDigit? c with
    | Option.some d => digitsVal cs (acc * 10 + d)
    | Option.none => Option.none

/-- Digits of a non-empty decimal numeral; `none` otherwise. -/
def parseDigits : List Char → Option ℕ
  | [] => Option.none
  | l => digitsVal l 0

/-- Python `int()` on a string, modelled as a plain decimal parse with an
optional leading minus sign; `none` models the `ValueError` raised on a
non-numeric string. (Python also strips whitespace and accepts `+`; no
claim depends on those inputs.) -/
def strToInt? (s : String) : Option ℤ :=
  match s.data with
  | '-' :: rest => (parseDigits rest).map fun n => -(n : ℤ)
  | l => (parseDigits l).map fun n => (n : ℤ)

inductive PyId where
  | pyNone
  | int (n : ℤ)
  | str (s : String)
deriving DecidableEq, Repr

/-- Python truthiness of an identifier: `None`, `0` and `""` are falsy. -/
def PyId.falsy : PyId → Bool
  | .pyNone => true
  | .int n => n == 0
  | .str s => s == ""

/-- Python `str()` of an identifier. -/
def PyId.toStr : PyId → String
  | .pyNone => "None"
  | .int n => toString n
  | .str s => s

/-- Python `int()` of an identifier; `Option.none` models the `ValueError`
raised when a string does not parse as an integer. (`int(None)` also
raises, but every call site guards with `is not None` first.) -/
def PyId.toInt? : PyId → Option ℤ
  | .pyNone => Option.none
  | .int n => Option.some n
  | .str s => strToInt? s

/-! ## Position records and the position resolver
(`close_trade`, ostium_service.py lines 398-424) -/

/-- A live-position record as consumed by `close_trade`'s resolution loop.
Fields are `Option`s because the source reads them with `pos.get(...)`:
`tradeID` and `pairId` hold the `str()` of the raw values, `pairNestedId`
models `pos.get("pair", {}).get("id", ...)`, and `index` models
`pos.get("index", ...)`. -/
structure Position where
  tradeID : Option String := Option.none
  pairId : Option String := Option.none
  pairNestedId : Option String := Option.none
  index : Option ℤ := Option.none
deriving DecidableEq, Repr

/-- The match test of the resolution loop (ostium_service.py lines 404-411):
the candidate's `str()` is compared against `str(pos.get("tradeID", ""))`,
`str(pos.get("pairId", ""))` and `str(pos.get("pair", {}).get("id", ""))`. -/
def posMatches (candidate : String) (pos : Position) : Bool :=
  pos.tradeID.getD "" == candidate
    || pos.pairId.getD "" == candidate
    || pos.pairNestedId.getD "" == candidate

/-- The identifier/index pair extracted from a matched position
(ostium_service.py lines 413-414):
`actual_pair_id = nested_pair_id or pos.get("pairId", pair_id)` and
`actual_trade_index = pos.get("index", trade_index)`. -/
def resolvedOf (pair_id : PyId) (trade_index : Option ℤ) (pos : Position) :
    PyId × Option ℤ :=
  ( if pos.pairNestedId.getD "" ≠ "" then PyId.str (pos.pairNestedId.getD "")
    else
      match pos.pairId with
      | Option.some s => PyId.str s
      | Option.none => pair_id
  , match pos.index with
    | Option.some i => Option.some i
    | Option.none => trade_index )

/-- The resolution loop of `close_trade` (ostium_service.py lines 403-424):
first position matching any of the three identifier fields wins; `none`
models the `position_exists = False` outcome. -/
def resolvePosition (pair_id : PyId) (trade_index : Option ℤ)
    (positions : List Position) : Option (PyId × Option ℤ) :=
  (positions.find? (posMatches pair_id.toStr)).map (resolvedOf pair_id trade_index)

/-! ## External-call traces and environments -/

/-- External ledger-gateway calls an operation can perform, in order. -/
inductive ExtCall where
  | fetchPositions
  | fetchPrice (from_currency to_currency : String)
  | submitOpen (execution_price : ℚ)
  | submitClose (pair_id trade_index percentage : ℤ)
  | trackOrder (order_id : String)
deriving DecidableEq, Repr

/-- Result of `sdk.ostium.close_trade` / `perform_trade`: a receipt hash and
an order id (`""` models a falsy/missing order id). -/
structure SubmitResult where
  txHash : String
  orderId : String
deriving DecidableEq, Repr

/-- The `result['order']` record handed back by
`sdk.ostium.track_order_and_trade` (ostium_service.py lines 456-479).
`tradeID` is read with direct indexing, the rest with `.get`. -/
structure OrderRecord where
  tradeID : String
  profitPercent : Option ℚ := Option.none
  amountSentToTrader : Option ℚ := Option.none
  isPending : Option Bool := Option.none
  isCancelled : Option Bool := Option.none
  cancelReason : Option String := Option.none
deriving DecidableEq, Repr

/-- Environment for one `close_trade` run: the results the external layer
would return. `positions` is total because `get_open_positions`
(ostium_service.py lines 375-385) catches every exception and returns `[]`.
`submit` is `Except` because `sdk.ostium.close_trade` may raise (caught by
the outer handler). `track` models `sdk.ostium.track_order_and_trade`
(line 455): `Except.error` when the call raises (the outer handler at
lines 493-495 then returns the failure dict), `Except.ok Option.none` when
it returns a falsy result or one without an `order` entry, and
`Except.ok (Option.some order)` for a usable record. -/
structure CloseEnv where
  positions : List Position
  submit : Except String SubmitResult
  track : Except String (Option OrderRecord)

/-- The result dict of `close_trade`; keys absent on a branch are `none`. -/
structure CloseResult where
  success : Bool
  error : Option String := Option.none
  txHash : Option String := Option.none
  orderId : Option String := Option.none
  tradeId : Option String := Option.none
  pnl : Option ℚ := Option.none
  orderStatus : Option String := Option.none
  cancelled : Option Bool := Option.none
  cancelReason : Option String := Option.none
  note : Option String := Option.none
deriving DecidableEq, Repr

/-- `close_trade(pair_id, trade_index, close_percentage, trader_address)`
(ostium_service.py lines 387-495), returning the result dict together with
the external calls performed. Branches, in source order:
* falsy `pair_id` → `{"success": False, "error": "Trade ID is required"}`
  before any call (lines 394-395);
* resolution over the fetched live positions (lines 398-424); no match →
  `"Position with ID ... not found or already closed"` (lines 418-419);
* the resolved id goes through `int()` (line 433; a non-numeric string
  raises `ValueError`, caught by the outer handler), then the clamped
  u16/u8/u16 encoding (lines 433-435) and submission (lines 440-442);
* submission exception → failure dict via the outer handler (lines 493-495);
  falsy `order_id` → `"Failed to get order ID"` (lines 446-448);
* tracking (line 455): if `track_order_and_trade` raises, the outer
  handler returns `{"success": False, "error": str(e)}` (lines 493-495),
  retracting the already-successful submission; a usable order record
  yields `success_result` (lines 466-484), flipped to failure with
  `cancel_reason` when `isCancelled` (lines 476-479); on the
  non-cancelled path `close_trade_datapoints` is computed and logged
  only, never merged into the returned dict (lines 480-482); a returned
  result with no usable record yields the "tracking failed" note dict
  (lines 485-492). -/
def close_trade (pair_id : PyId) (trade_index : Option ℤ)
    (close_percentage : Option ℤ) (env : CloseEnv) :
    CloseResult × List ExtCall :=
  if pair_id.falsy then
    ({ success := false, error := Option.some "Trade ID is required" }, [])
  else
    match resolvePosition pair_id trade_index env.positions with
    | Option.none =>
      ({ success := false
         error := Option.some
           ("Position with ID " ++ pair_id.toStr ++ " not found or already closed") },
       [ExtCall.fetchPositions])
    | Option.some (rid, ridx) =>
      match rid.toInt? with
      | Option.none =>
        ({ success := false
           error := Option.some ("invalid literal for int(): " ++ rid.toStr) },
         [ExtCall.fetchPositions])
      | Option.some pidInt =>
        let pair_id_uint16 := encode_u16 (Option.some pidInt)
        let trade_index_uint8 := encode_u8 ridx
        let close_percentage_uint16 := encode_percentage close_percentage
        let calls₁ := [ExtCall.fetchPositions,
          ExtCall.submitClose pair_id_uint16 trade_index_uint8 close_percentage_uint16]
        match env.submit with
        | Except.error e =>
          ({ success := false, error := Option.some e }, calls₁)
        | Except.ok sub =>
          if sub.orderId = "" then
            ({ success := false, error := Option.some "Failed to get order ID" }, calls₁)
          else
            let calls₂ := calls₁ ++ [ExtCall.trackOrder sub.orderId]
            match env.track with
            | Except.error e =>
              ({ success := false, error := Option.some e }, calls₂)
            | Except.ok Option.none =>
              ({ success := true
                 txHash := Option.some sub.txHash
                 orderId := Option.some sub.orderId
                 tradeId := Option.some rid.toStr
                 note := Option.some "Order submitted successfully, but tracking failed" },
               calls₂)
            | Except.ok (Option.some order) =>
              let pnl : ℚ :=
                match order.profitPercent with
                | Option.some p => p
                | Option.none =>
                  match order.amountSentToTrader with
                  | Option.some a => a
                  | Option.none => 0
              let base : CloseResult :=
                { success := true
                  txHash := Option.some sub.txHash
                  orderId := Option.some sub.orderId
                  tradeId := Option.some order.tradeID
                  pnl := Option.some pnl
                  orderStatus := Option.some
                    (if !(order.isPending.getD true) then "Processed" else "Pending")
                  cancelled := Option.some (order.isCancelled.getD false) }
              if order.isCancelled.getD false then
                ({ base with
                    success := false
                    cancelReason := Option.some (order.cancelReason.getD "Unknown")
                    error := Option.some
                      ("Order cancelled: " ++ order.cancelReason.getD "Unknown") },
                 calls₂)
              else
                (base, calls₂)

/-! ## Order placement (`place_order`, ostium_service.py lines 251-343) -/

/-- Environment for one `place_order` run. `price` is the result of
`sdk.price.get_price` followed by `perform_trade` being reachable; an
`Except.error` models an exception from either the price fetch or the
submission (both live in the same `try`, so I split them:) -/
structure PlaceEnv where
  price : Except String ℚ
  submit : Except String SubmitResult
  /-- price seen by the `get_price` call inside `trade_data_points`
  (ostium_service.py line 778); `none` models a failed fetch. -/
  summaryPrice : Option ℚ

/-- The result dict of `place_order`; keys absent on a branch are `none`.
The fields `entry`, `size`, `liquidation` and `direction` are the keys a
returned trade summary would occupy; `place_order` never sets them
(the summary is only logged, ostium_service.py lines 323-331 vs 333-339). -/
structure PlaceResult where
  success : Bool
  error : Option String := Option.none
  txHash : Option String := Option.none
  orderId : Option String := Option.none
  price : Option ℚ := Option.none
  pair : Option String := Option.none
  entry : Option ℚ := Option.none
  size : Option ℚ := Option.none
  liquidation : Option ℚ := Option.none
  direction : Option String := Option.none
deriving DecidableEq, Repr

/-- Everything observable from one `place_order` run: the returned dict,
the external calls, and the trade summary that was computed and logged
(`none` when the run never reached the summary step). -/
structure PlaceOutput where
  result : PlaceResult
  calls : List ExtCall
  loggedSummary : Option (Except String TradeSummary)
deriving Repr

/-- `place_order(...)` (ostium_service.py lines 251-343). Validation
(lines 265-272) happens before the `try` block, hence before any external
call: missing currency → `"Currency pair is required"`, `collateral <= 0` →
`"Collateral must be positive"`, `leverage <= 0` → `"Leverage must be
positive"`. Then the current price is fetched, the execution price is the
limit price when the order is a limit order with a truthy limit price
(line 309), the trade is submitted, the trade summary is computed by
`trade_data_points` and logged (lines 323-331), and the returned dict
carries only `success`, `tx_hash`, `order_id`, `price` and `pair`
(lines 333-339). Exceptions inside the `try` yield
`{"success": False, "error": str(e)}` (lines 341-343). -/
def place_order (price_from_currency price_to_currency : String)
    (collateral : ℚ) (leverage : ℤ) (direction : Bool) (is_limit : Bool)
    (limit_price : Option ℚ) (env : PlaceEnv) : PlaceOutput :=
  if price_from_currency = "" ∨ price_to_currency = "" then
    { result := { success := false, error := Option.some "Currency pair is required" }
      calls := [], loggedSummary := Option.none }
  else if collateral ≤ 0 then
    { result := { success := false, error := Option.some "Collateral must be positive" }
      calls := [], loggedSummary := Option.none }
  else if leverage ≤ 0 then
    { result := { success := false, error := Option.some "Leverage must be positive" }
      calls := [], loggedSummary := Option.none }
  else
    let priceCall := ExtCall.fetchPrice price_from_currency price_to_currency
    match env.price with
    | Except.error e =>
      { result := { success := false, error := Option.some e }
        calls := [priceCall], loggedSummary := Option.none }
    | Except.ok latest_price =>
      let execution_price :=
        match limit_price with
        | Option.some lp => if is_limit && !(lp == 0) then lp else latest_price
        | Option.none => latest_price
      match env.submit with
      | Except.error e =>
        { result := { success := false, error := Option.some e }
          calls := [priceCall, ExtCall.submitOpen execution_price]
          loggedSummary := Option.none }
      | Except.ok sub =>
        let summary := trade_data_points env.summaryPrice collateral leverage direction
        { result :=
            { success := true
              txHash := Option.some sub.txHash
              orderId := Option.some sub.orderId
              price := Option.some latest_price
              pair := Option.some (price_from_currency ++ "/" ++ price_to_currency) }
          calls := [priceCall, ExtCall.submitOpen execution_price,
            ExtCall.fetchPrice price_from_currency price_to_currency]
          loggedSummary := Option.some summary }

/-! ## Shared concrete fixtures and evaluation lemmas -/

/-- The live position of the spec's resolver example:
`{tradeID: "7", pairId: "3"}`. -/
def demoPos : Position := { tradeID := Option.some "7", pairId := Option.some "3" }

/-- Concrete evaluation of the trade summary for the spec's end-to-end
scenario: collateral 100, leverage 10, market price 1.10, long. -/
theorem trade_data_points_eur_usd :
    trade_data_points (Option.some (11/10)) 100 10 true =
      Except.ok { entry := 11/10, size := 1000, liquidation := 99/100,
                  direction := "LONG" } := by
  simp only [trade_data_points, position_size, liquidation_price_at_open, round2]
  norm_num [round_eq]

/-! ## Claim C1 -/

/-- C1: for every successful order placement (validation guarantees
`leverage > 0`), the trade summary computed by `trade_data_points` has
position size `collateral * leverage` and at-open liquidation price
`entry * (1 - 1/leverage)` for a long, `entry * (1 + 1/leverage)` for a
short (each rounded to 2 decimals for display); in particular a long with
collateral 100, leverage 10, market price 1.10 yields entry 1.10,
size 1000.00, liquidation 0.99, direction LONG. -/
theorem c1_trade_summary_formulas (price collateral : ℚ) (leverage : ℤ)
    (direction : Bool) (h : 0 < leverage) :
    trade_data_points (Option.some price) collateral leverage direction =
      Except.ok
        { entry := round2 price
          size := round2 (collateral * (leverage : ℚ))
          liquidation := round2 (if direction then price * (1 - 1 / (leverage : ℚ))
            else price * (1 + 1 / (leverage : ℚ)))
          direction := if direction then "LONG" else "SHORT" } ∧
    trade_data_points (Option.some (11/10)) 100 10 true =
      Except.ok { entry := 11/10, size := 1000, liquidation := 99/100,
                  direction := "LONG" } := by
  refine ⟨?_, trade_data_points_eur_usd⟩
  simp only [trade_data_points, position_size, liquidation_price_at_open]
  rw [if_neg (by omega : ¬ leverage = 0)]

/-- Witness for C1 at the spec's end-to-end inputs. -/
theorem c1_trade_summary_formulas_witness :
    (0 : ℤ) < 10 ∧
    trade_data_points (Option.some (11/10)) 100 10 true =
      Except.ok { entry := 11/10, size := 1000, liquidation := 99/100,
                  direction := "LONG" } :=
  ⟨by norm_num, (c1_trade_summary_formulas (11/10) 100 10 true (by norm_num)).2⟩

/-! ## Claim C6 -/

/-- C6: the numeric encoders substitute defaults 0, 0, 100 for an absent
input, clamp into `[0, 65535]` (u16) and `[0, 255]` (u8) — to the boundary,
never wrapping, and totally (no exception path exists); in particular
`encode_u16 70000 = 65535`, `encode_u16 (-5) = 0`, `encode_u8 300 = 255`,
`encode_percentage None = 100`. -/
theorem c6_encoder_defaults_and_clamping :
    (∀ v : Option ℤ, 0 ≤ encode_u16 v ∧ encode_u16 v ≤ 65535) ∧
    (∀ v : Option ℤ, 0 ≤ encode_u8 v ∧ encode_u8 v ≤ 255) ∧
    (∀ v : Option ℤ, 0 ≤ encode_percentage v ∧ encode_percentage v ≤ 65535) ∧
    encode_u16 Option.none = 0 ∧
    encode_u8 Option.none = 0 ∧
    encode_percentage Option.none = 100 ∧
    (∀ n : ℤ, encode_u16 (Option.some n) =
      if n < 0 then 0 else if 65535 < n then 65535 else n) ∧
    (∀ n : ℤ, encode_u8 (Option.some n) =
      if n < 0 then 0 else if 255 < n then 255 else n) ∧
    (∀ n : ℤ, encode_percentage (Option.some n) =
      if n < 0 then 0 else if 65535 < n then 65535 else n) ∧
    encode_u16 (Option.some 70000) = 65535 ∧
    encode_u16 (Option.some (-5)) = 0 ∧
    encode_u8 (Option.some 300) = 255 := by
  refine ⟨?_, ?_, ?_, by decide, by decide, by decide, ?_, ?_, ?_,
    by decide, by decide, by decide⟩
  · intro v
    cases v <;> constructor <;> (simp only [encode_u16, Option.getD]; omega)
  · intro v
    cases v <;> constructor <;> (simp only [encode_u8, Option.getD]; omega)
  · intro v
    cases v <;> constructor <;> (simp only [encode_percentage, Option.getD]; omega)
  · intro n
    simp only [encode_u16, Option.getD]
    split_ifs <;> omega
  · intro n
    simp only [encode_u8, Option.getD]
    split_ifs <;> omega
  · intro n
    simp only [encode_percentage, Option.getD]
    split_ifs <;> omega

/-! ## Claim C7 -/

/-- C7 counterexample: `trade_data_points` (the at-open liquidation path of
the Financial Calculator) has no guard for `leverage = 0`; the source
evaluates `1 / leverage`, raising `ZeroDivisionError`, and the handler
returns the failure dict — not a defined degenerate value. -/
theorem c7_counterexample_at_open_divides_by_zero :
    trade_data_points (Option.some (11/10)) 100 0 true =
      Except.error "division by zero" := by
  simp [trade_data_points]

/-- C7 amended: the close-path calculator functions are guarded —
`liquidation_price_estimate` returns `entry` whenever `leverage ≤ 0` and
`pnl_percentage` returns 0 whenever `collateral ≤ 0` — but the at-open
summary `trade_data_points` is not: at `leverage = 0` it takes the
division-by-zero exception path and returns a failure result instead of a
degenerate value. -/
theorem c7_guarded_paths_except_at_open (entry leverage pnl collateral price c : ℚ)
    (direction d₂ : Bool) (hl : leverage ≤ 0) (hc : collateral ≤ 0) :
    liquidation_price_estimate entry leverage direction = entry ∧
    pnl_percentage pnl collateral = 0 ∧
    trade_data_points (Option.some price) c 0 d₂ =
      Except.error "division by zero" := by
  refine ⟨?_, ?_, by simp [trade_data_points]⟩
  · rw [liquidation_price_estimate, if_neg (not_lt.mpr hl)]
  · rw [pnl_percentage, if_neg (not_lt.mpr hc)]

/-- Witness for C7's amended statement at `leverage = 0`,
`collateral = 0`. -/
theorem c7_guarded_paths_except_at_open_witness :
    (0 : ℚ) ≤ 0 ∧
    (liquidation_price_estimate (11/10) 0 true = 11/10 ∧
     pnl_percentage 18 0 = 0 ∧
     trade_data_points (Option.some (11/10)) 100 0 true =
       Except.error "division by zero") :=
  ⟨le_refl 0,
   c7_guarded_paths_except_at_open (11/10) 0 18 0 (11/10) 100 true true
     (le_refl 0) (le_refl 0)⟩

/-! ## Claim C8 -/

/-- C8: for `collateral > 0`, the closed-P&L reconstruction inverts the
open-P&L percentage exactly over unrounded rational arithmetic:
`pnl_closed (pnl_percentage pnl collateral) collateral = pnl`. -/
theorem c8_pnl_round_trip (pnl collateral : ℚ) (h : 0 < collateral) :
    pnl_closed (pnl_percentage pnl collateral) collateral = pnl := by
  rw [pnl_percentage, if_pos h, pnl_closed]
  field_simp
  ring

/-- Witness for C8 at `pnl = 18`, `collateral = 100`. -/
theorem c8_pnl_round_trip_witness :
    (0 : ℚ) < 100 ∧ pnl_closed (pnl_percentage 18 100) 100 = 18 :=
  ⟨by norm_num, c8_pnl_round_trip 18 100 (by norm_num)⟩

/-! ## Claim C10 -/

/-- C10: a falsy position identifier (`None`, `0`, `""`) short-circuits
`close_trade` to `{"success": False, "error": "Trade ID is required"}`
with no external call at all — so market id 0 can never be targeted
directly by the numeric value 0. -/
theorem c10_close_trade_falsy_id (pair_id : PyId) (ti cp : Option ℤ)
    (env : CloseEnv) (h : pair_id.falsy = true) :
    close_trade pair_id ti cp env =
      ({ success := false, error := Option.some "Trade ID is required" }, []) := by
  simp [close_trade, h]

/-- Witness for C10 at the numeric identifier 0. -/
theorem c10_close_trade_falsy_id_witness :
    PyId.falsy (PyId.int 0) = true ∧
    close_trade (PyId.int 0) Option.none Option.none
      { positions := [demoPos], submit := Except.error "unreached",
        track := Except.ok Option.none } =
      ({ success := false, error := Option.some "Trade ID is required" }, []) :=
  ⟨rfl, c10_close_trade_falsy_id (PyId.int 0) Option.none Option.none _ rfl⟩

/-! ## Claim C3 -/

/-- If a predicate rejects all of `l₁` and accepts `a`, `find?` over
`l₁ ++ a :: l₂` returns `a`. -/
theorem find?_first_accepted {α : Type} (p : α → Bool) (l₁ l₂ : List α) (a : α)
    (h₁ : ∀ x ∈ l₁, p x = false) (h₂ : p a = true) :
    List.find? p (l₁ ++ a :: l₂) = Option.some a := by
  induction l₁ with
  | nil => simpa using List.find?_cons_of_pos l₂ h₂
  | cons b l ih =>
    have hb : p b = false := h₁ b (List.mem_cons_self b l)
    rw [List.cons_append, List.find?_cons_of_neg _ (by simp [hb])]
    exact ih fun x hx => h₁ x (List.mem_cons_of_mem b hx)

/-- C3: close-trade resolution tests the candidate against each live
position's trade id, pair id and nested pair id, in list order, and takes
the first position any of the three matches; with no match the operation
fails with the not-found message after only the position fetch (no
submission). In particular, against `[{tradeID: "7", pairId: "3"}]` the
candidates "3" and "7" resolve to the same `(pair id, index)` and "99"
yields the not-found failure. -/
theorem c3_close_trade_resolution (cand : PyId) (ti cp : Option ℤ)
    (env : CloseEnv) (hf : cand.falsy = false) :
    ((∀ pos ∈ env.positions, posMatches cand.toStr pos = false) →
        close_trade cand ti cp env =
          ({ success := false
             error := Option.some ("Position with ID " ++ cand.toStr ++
               " not found or already closed") },
           [ExtCall.fetchPositions])) ∧
    (∀ (l₁ l₂ : List Position) (pos : Position),
        env.positions = l₁ ++ pos :: l₂ →
        (∀ p ∈ l₁, posMatches cand.toStr p = false) →
        posMatches cand.toStr pos = true →
        resolvePosition cand ti env.positions =
          Option.some (resolvedOf cand ti pos)) ∧
    resolvePosition (PyId.str "3") ti [demoPos] =
      Option.some (PyId.str "3", ti) ∧
    resolvePosition (PyId.str "7") ti [demoPos] =
      Option.some (PyId.str "3", ti) ∧
    (∀ env' : CloseEnv, env'.positions = [demoPos] →
        close_trade (PyId.str "99") ti cp env' =
          ({ success := false
             error := Option.some
               "Position with ID 99 not found or already closed" },
           [ExtCall.fetchPositions])) := by
  refine ⟨?_, ?_, ?_, ?_, ?_⟩
  · intro hnone
    have hfind : env.positions.find? (posMatches cand.toStr) = Option.none :=
      List.find?_eq_none.mpr fun x hx => by simp [hnone x hx]
    simp [close_trade, hf, resolvePosition, hfind]
  · intro l₁ l₂ pos hsplit hbefore hmatch
    rw [resolvePosition, hsplit, find?_first_accepted _ _ _ _ hbefore hmatch]
    rfl
  · rfl
  · rfl
  · intro env' henv
    have hfind : env'.positions.find? (posMatches "99") = Option.none := by
      rw [henv]; decide
    simp [close_trade, resolvePosition, PyId.falsy, PyId.toStr, hfind]

/-- Witness for C3 against the demo position list. -/
theorem c3_close_trade_resolution_witness :
    PyId.falsy (PyId.str "99") = false ∧
    close_trade (PyId.str "99") Option.none Option.none
      { positions := [demoPos], submit := Except.error "unreached",
        track := Except.ok Option.none } =
      ({ success := false
         error := Option.some
           "Position with ID 99 not found or already closed" },
       [ExtCall.fetchPositions]) :=
  ⟨rfl,
   (c3_close_trade_resolution (PyId.str "99") Option.none Option.none
       { positions := [demoPos], submit := Except.error "unreached",
         track := Except.ok Option.none } rfl).2.2.2.2
     { positions := [demoPos], submit := Except.error "unreached",
       track := Except.ok Option.none } rfl⟩

/-! ## Claim C4 -/

/-- The tracked order record of the spec's cancellation example. -/
def cancelledOrder : OrderRecord :=
  { tradeID := "7", isPending := Option.some false,
    isCancelled := Option.some true, cancelReason := Option.some "slippage" }

/-- Environment reaching tracking with a cancelled record. -/
def demoCancelEnv : CloseEnv :=
  { positions := [demoPos], submit := Except.ok { txHash := "0xabc", orderId := "42" },
    track := Except.ok (Option.some cancelledOrder) }

/-- C4: when the tracked order record reports `isCancelled = true`,
`close_trade` flips the overall result to failure and carries the
venue-reported cancellation reason verbatim in `cancel_reason` (and in the
error message); in particular `isPending=false, isCancelled=true,
cancelReason="slippage"` yields a failure with
`cancel_reason = "slippage"`. -/
theorem c4_close_trade_cancelled (cand : PyId) (ti cp : Option ℤ)
    (env : CloseEnv) (rid : PyId) (ridx : Option ℤ) (n : ℤ)
    (sub : SubmitResult) (order : OrderRecord) (reason : String)
    (hf : cand.falsy = false)
    (hres : resolvePosition cand ti env.positions = Option.some (rid, ridx))
    (hint : rid.toInt? = Option.some n)
    (hsub : env.submit = Except.ok sub)
    (hoid : ¬ sub.orderId = "")
    (htrack : env.track = Except.ok (Option.some order))
    (hcan : order.isCancelled = Option.some true)
    (hreason : order.cancelReason = Option.some reason) :
    (close_trade cand ti cp env).1.success = false ∧
    (close_trade cand ti cp env).1.cancelReason = Option.some reason ∧
    (close_trade cand ti cp env).1.cancelled = Option.some true ∧
    (close_trade cand ti cp env).1.error =
      Option.some ("Order cancelled: " ++ reason) := by
  simp [close_trade, hf, hres, hint, hsub, hoid, htrack, hcan, hreason]

/-- Witness for C4 at the spec's cancellation example. -/
theorem c4_close_trade_cancelled_witness :
    demoCancelEnv.track = Except.ok (Option.some cancelledOrder) ∧
    cancelledOrder.isCancelled = Option.some true ∧
    ((close_trade (PyId.str "7") Option.none Option.none demoCancelEnv).1.success
        = false ∧
      (close_trade (PyId.str "7") Option.none Option.none demoCancelEnv).1.cancelReason
        = Option.some "slippage" ∧
      (close_trade (PyId.str "7") Option.none Option.none demoCancelEnv).1.cancelled
        = Option.some true ∧
      (close_trade (PyId.str "7") Option.none Option.none demoCancelEnv).1.error
        = Option.some "Order cancelled: slippage") :=
  ⟨rfl, rfl,
   c4_close_trade_cancelled (PyId.str "7") Option.none Option.none demoCancelEnv
     (PyId.str "3") Option.none 3 { txHash := "0xabc", orderId := "42" }
     cancelledOrder "slippage" rfl rfl (by decide) rfl (by decide) rfl rfl rfl⟩

/-! ## Claim C5 -/

/-- Environment in which submission succeeds but the tracking call itself
raises. -/
def demoTrackRaiseEnv : CloseEnv :=
  { positions := [demoPos],
    submit := Except.ok { txHash := "0xabc", orderId := "42" },
    track := Except.error "network error" }

/-- C5 counterexample: when `track_order_and_trade` itself raises rather
than returning an unusable record, the outer handler (ostium_service.py
lines 493-495) returns `{"success": False, "error": str(e)}` — the
already-successful submission is reported as a failure, with no
transaction hash, no order id and no note. This refutes "a tracking
failure never turns an already-successful submission into a failure
result". -/
theorem c5_counterexample_tracking_exception_retracts :
    demoTrackRaiseEnv.submit =
      Except.ok { txHash := "0xabc", orderId := "42" } ∧
    (close_trade (PyId.str "7") Option.none Option.none
        demoTrackRaiseEnv).1 =
      { success := false, error := Option.some "network error" } ∧
    (close_trade (PyId.str "7") Option.none Option.none
        demoTrackRaiseEnv).1.success = false ∧
    (close_trade (PyId.str "7") Option.none Option.none
        demoTrackRaiseEnv).1.txHash = Option.none ∧
    (close_trade (PyId.str "7") Option.none Option.none
        demoTrackRaiseEnv).1.note = Option.none :=
  ⟨rfl, by decide, by decide, by decide, by decide⟩

/-- C5 amended: when submission succeeds (with a usable order id) and the
tracking query *returns* but yields no usable order record, `close_trade`
returns success carrying the transaction hash and order id together with
the "Order submitted successfully, but tracking failed" note; but when the
tracking call itself raises, the outer exception handler returns the
failure dict `{"success": False, "error": str(e)}`, retracting the
successful submission. -/
theorem c5_close_trade_tracking_outcomes (cand : PyId) (ti cp : Option ℤ)
    (env : CloseEnv) (rid : PyId) (ridx : Option ℤ) (n : ℤ)
    (sub : SubmitResult)
    (hf : cand.falsy = false)
    (hres : resolvePosition cand ti env.positions = Option.some (rid, ridx))
    (hint : rid.toInt? = Option.some n)
    (hsub : env.submit = Except.ok sub)
    (hoid : ¬ sub.orderId = "") :
    (env.track = Except.ok Option.none →
      (close_trade cand ti cp env).1 =
        { success := true
          txHash := Option.some sub.txHash
          orderId := Option.some sub.orderId
          tradeId := Option.some rid.toStr
          note := Option.some
            "Order submitted successfully, but tracking failed" }) ∧
    (∀ e : String, env.track = Except.error e →
      (close_trade cand ti cp env).1 =
        { success := false, error := Option.some e }) := by
  constructor
  · intro htrack
    simp [close_trade, hf, hres, hint, hsub, hoid, htrack]
  · intro e htrack
    simp [close_trade, hf, hres, hint, hsub, hoid, htrack]

/-- Witness for C5's amended statement with a tracking query returning
nothing usable. -/
theorem c5_close_trade_tracking_outcomes_witness :
    ¬ ("42" : String) = "" ∧
    ((({ positions := [demoPos],
         submit := Except.ok { txHash := "0xabc", orderId := "42" },
         track := Except.ok Option.none } : CloseEnv).track =
          Except.ok Option.none →
      (close_trade (PyId.str "7") Option.none Option.none
          { positions := [demoPos],
            submit := Except.ok { txHash := "0xabc", orderId := "42" },
            track := Except.ok Option.none }).1 =
        { success := true
          txHash := Option.some "0xabc"
          orderId := Option.some "42"
          tradeId := Option.some "3"
          note := Option.some
            "Order submitted successfully, but tracking failed" }) ∧
     (∀ e : String,
        ({ positions := [demoPos],
           submit := Except.ok { txHash := "0xabc", orderId := "42" },
           track := Except.ok Option.none } : CloseEnv).track =
            Except.error e →
        (close_trade (PyId.str "7") Option.none Option.none
            { positions := [demoPos],
              submit := Except.ok { txHash := "0xabc", orderId := "42" },
              track := Except.ok Option.none }).1 =
          { success := false, error := Option.some e })) :=
  ⟨by decide,
   c5_close_trade_tracking_outcomes (PyId.str "7") Option.none Option.none
     { positions := [demoPos],
       submit := Except.ok { txHash := "0xabc", orderId := "42" },
       track := Except.ok Option.none }
     (PyId.str "3") Option.none 3 { txHash := "0xabc", orderId := "42" }
     rfl rfl (by decide) rfl (by decide)⟩

/-! ## Claim C2 -/

/-- C2: a place-order request with a missing currency pair, non-positive
collateral, or non-positive leverage fails with a structured reason before
any external call: no price fetch, no submission, no summary computation. -/
theorem c2_place_order_validation (f t : String) (collateral : ℚ)
    (leverage : ℤ) (direction is_limit : Bool) (lp : Option ℚ)
    (env : PlaceEnv)
    (h : f = "" ∨ t = "" ∨ collateral ≤ 0 ∨ leverage ≤ 0) :
    (place_order f t collateral leverage direction is_limit lp env).result.success
        = false ∧
    (place_order f t collateral leverage direction is_limit lp env).calls = [] ∧
    (place_order f t collateral leverage direction is_limit lp env).loggedSummary
        = Option.none ∧
    ((place_order f t collateral leverage direction is_limit lp env).result.error
          = Option.some "Currency pair is required" ∨
      (place_order f t collateral leverage direction is_limit lp env).result.error
          = Option.some "Collateral must be positive" ∨
      (place_order f t collateral leverage direction is_limit lp env).result.error
          = Option.some "Leverage must be positive") := by
  unfold place_order
  by_cases h1 : f = "" ∨ t = ""
  · rw [if_pos h1]
    exact ⟨rfl, rfl, rfl, Or.inl rfl⟩
  · rw [if_neg h1]
    by_cases h2 : collateral ≤ 0
    · rw [if_pos h2]
      exact ⟨rfl, rfl, rfl, Or.inr (Or.inl rfl)⟩
    · rw [if_neg h2]
      have h3 : leverage ≤ 0 := by tauto
      rw [if_pos h3]
      exact ⟨rfl, rfl, rfl, Or.inr (Or.inr rfl)⟩

/-- Witness for C2 at non-positive collateral. -/
theorem c2_place_order_validation_witness :
    ("EUR" = "" ∨ "USD" = "" ∨ (-3 : ℚ) ≤ 0 ∨ (10 : ℤ) ≤ 0) ∧
    ((place_order "EUR" "USD" (-3) 10 true false Option.none
          { price := Except.ok (11/10),
            submit := Except.ok { txHash := "0xabc", orderId := "42" },
            summaryPrice := Option.some (11/10) }).result.success = false ∧
      (place_order "EUR" "USD" (-3) 10 true false Option.none
          { price := Except.ok (11/10),
            submit := Except.ok { txHash := "0xabc", orderId := "42" },
            summaryPrice := Option.some (11/10) }).calls = [] ∧
      (place_order "EUR" "USD" (-3) 10 true false Option.none
          { price := Except.ok (11/10),
            submit := Except.ok { txHash := "0xabc", orderId := "42" },
            summaryPrice := Option.some (11/10) }).loggedSummary = Option.none ∧
      ((place_order "EUR" "USD" (-3) 10 true false Option.none
            { price := Except.ok (11/10),
              submit := Except.ok { txHash := "0xabc", orderId := "42" },
              summaryPrice := Option.some (11/10) }).result.error
            = Option.some "Currency pair is required" ∨
        (place_order "EUR" "USD" (-3) 10 true false Option.none
            { price := Except.ok (11/10),
              submit := Except.ok { txHash := "0xabc", orderId := "42" },
              summaryPrice := Option.some (11/10) }).result.error
            = Option.some "Collateral must be positive" ∨
        (place_order "EUR" "USD" (-3) 10 true false Option.none
            { price := Except.ok (11/10),
              submit := Except.ok { txHash := "0xabc", orderId := "42" },
              summaryPrice := Option.some (11/10) }).result.error
            = Option.some "Leverage must be positive")) :=
  ⟨Or.inr (Or.inr (Or.inl (by norm_num))),
   c2_place_order_validation "EUR" "USD" (-3) 10 true false Option.none
     { price := Except.ok (11/10),
       submit := Except.ok { txHash := "0xabc", orderId := "42" },
       summaryPrice := Option.some (11/10) }
     (Or.inr (Or.inr (Or.inl (by norm_num))))⟩

/-! ## Claim C9 -/

/-- Environment for a fully successful placement of the spec's end-to-end
scenario. -/
def demoPlaceEnv : PlaceEnv :=
  { price := Except.ok (11/10),
    submit := Except.ok { txHash := "0xabc", orderId := "42" },
    summaryPrice := Option.some (11/10) }

/-- C9 counterexample: a successful order placement computes and logs the
trade summary, but the returned result dict carries none of its fields —
`entry`, `size`, `liquidation` and `direction` are all absent. -/
theorem c9_counterexample_summary_not_in_result :
    (place_order "EUR" "USD" 100 10 true false Option.none
        demoPlaceEnv).result.success = true ∧
    (place_order "EUR" "USD" 100 10 true false Option.none
        demoPlaceEnv).loggedSummary =
      Option.some (Except.ok { entry := 11/10, size := 1000,
                               liquidation := 99/100, direction := "LONG" }) ∧
    (place_order "EUR" "USD" 100 10 true false Option.none
        demoPlaceEnv).result.entry = Option.none ∧
    (place_order "EUR" "USD" 100 10 true false Option.none
        demoPlaceEnv).result.size = Option.none ∧
    (place_order "EUR" "USD" 100 10 true false Option.none
        demoPlaceEnv).result.liquidation = Option.none ∧
    (place_order "EUR" "USD" 100 10 true false Option.none
        demoPlaceEnv).result.direction = Option.none := by
  refine ⟨rfl, ?_, rfl, rfl, rfl, rfl⟩
  show Option.some (trade_data_points (Option.some (11/10)) 100 10 true) = _
  rw [trade_data_points_eur_usd]

/-- C9 amended: the trade summary (and, for closes, the close datapoints
with P&L and fees) is computed and logged, not attached; a successful
placement's result carries exactly `success`, `tx_hash`, `order_id`, the
fetched market `price` and the `pair` string, and a successful
(non-cancelled) close's result carries exactly `success`, `tx_hash`,
`order_id`, `trade_id`, `pnl`, `order_status` and `cancelled`. -/
theorem c9_success_results_payload (f t : String) (collateral latest : ℚ)
    (leverage : ℤ) (direction is_limit : Bool) (lp : Option ℚ)
    (penv : PlaceEnv) (sub : SubmitResult)
    (h1 : ¬ (f = "" ∨ t = "")) (h2 : ¬ collateral ≤ 0) (h3 : ¬ leverage ≤ 0)
    (hp : penv.price = Except.ok latest) (hs : penv.submit = Except.ok sub) :
    ((place_order f t collateral leverage direction is_limit lp penv).result =
        { success := true
          txHash := Option.some sub.txHash
          orderId := Option.some sub.orderId
          price := Option.some latest
          pair := Option.some (f ++ "/" ++ t) } ∧
      (place_order f t collateral leverage direction is_limit lp penv).loggedSummary =
        Option.some (trade_data_points penv.summaryPrice collateral leverage
          direction)) ∧
    ∀ (cand : PyId) (ti cp : Option ℤ) (cenv : CloseEnv) (rid : PyId)
      (ridx : Option ℤ) (n : ℤ) (csub : SubmitResult) (order : OrderRecord),
      cand.falsy = false →
      resolvePosition cand ti cenv.positions = Option.some (rid, ridx) →
      rid.toInt? = Option.some n →
      cenv.submit = Except.ok csub →
      ¬ csub.orderId = "" →
      cenv.track = Except.ok (Option.some order) →
      order.isCancelled = Option.some false →
      (close_trade cand ti cp cenv).1 =
        { success := true
          txHash := Option.some csub.txHash
          orderId := Option.some csub.orderId
          tradeId := Option.some order.tradeID
          pnl := Option.some (match order.profitPercent with
            | Option.some p => p
            | Option.none =>
              match order.amountSentToTrader with
              | Option.some a => a
              | Option.none => 0)
          orderStatus := Option.some
            (if !(order.isPending.getD true) then "Processed" else "Pending")
          cancelled := Option.some false } := by
  constructor
  · unfold place_order
    rw [if_neg h1, if_neg h2, if_neg h3, hp, hs]
    exact ⟨rfl, rfl⟩
  · intro cand ti cp cenv rid ridx n csub order hf hres hint hsub hoid htrack hcan
    simp [close_trade, hf, hres, hint, hsub, hoid, htrack, hcan]

/-- Witness for C9's amended statement at the end-to-end demo inputs. -/
theorem c9_success_results_payload_witness :
    ¬ ("EUR" = "" ∨ "USD" = "") ∧
    (((place_order "EUR" "USD" 100 10 true false Option.none
          demoPlaceEnv).result =
        { success := true
          txHash := Option.some "0xabc"
          orderId := Option.some "42"
          price := Option.some (11/10)
          pair := Option.some "EUR/USD" } ∧
      (place_order "EUR" "USD" 100 10 true false Option.none
          demoPlaceEnv).loggedSummary =
        Option.some (trade_data_points (Option.some (11/10)) 100 10 true)) ∧
     ∀ (cand : PyId) (ti cp : Option ℤ) (cenv : CloseEnv) (rid : PyId)
       (ridx : Option ℤ) (n : ℤ) (csub : SubmitResult) (order : OrderRecord),
       cand.falsy = false →
       resolvePosition cand ti cenv.positions = Option.some (rid, ridx) →
       rid.toInt? = Option.some n →
       cenv.submit = Except.ok csub →
       ¬ csub.orderId = "" →
       cenv.track = Except.ok (Option.some order) →
       order.isCancelled = Option.some false →
       (close_trade cand ti cp cenv).1 =
         { success := true
           txHash := Option.some csub.txHash
           orderId := Option.some csub.orderId
           tradeId := Option.some order.tradeID
           pnl := Option.some (match order.profitPercent with
             | Option.some p => p
             | Option.none =>
               match order.amountSentToTrader with
               | Option.some a => a
               | Option.none => 0)
           orderStatus := Option.some
             (if !(order.isPending.getD true) then "Processed" else "Pending")
           cancelled := Option.some false }) :=
  ⟨by simp,
   c9_success_results_payload "EUR" "USD" 100 (11/10) 10 true false Option.none
     demoPlaceEnv { txHash := "0xabc", orderId := "42" }
     (by simp) (by norm_num) (by norm_num) rfl rfl⟩

end Ostium
